import Mathlib

/-!
Verification of the session/transport layer of the Software-Defined-Truck
client (`Carla/PythonAPI/AMP/BrokerHandle.py` and
`Carla/PythonAPI/AMP/Client/SSS3.py`), as a shallow embedding in Lean 4.

Python machine integers are modelled as `Nat`/`Int`; the four-byte IEEE-754
float32 fields of the telemetry frame are modelled by their 32-bit patterns,
which is exact for the serialization code under study (the codec only moves
bytes, it performs no floating-point arithmetic).
-/

namespace SDT

/-! ## Frame wire codec (struct format "Ifff???B", 20 bytes, little-endian)

`SSS3.receive` decodes inbound datagrams with `struct.unpack("Ifff???B", data)`
and `SSS3.send` encodes with the matching `Frame.pack`.  On the target
platform the native format `Ifff???B` is 20 bytes with no padding:
uint32 at offset 0, three float32 at 4/8/12, three bools at 16/17/18 and one
uint8 at 19, each little-endian. -/

/-- A telemetry frame: `{sequenceOrId : u32, three float32 (as bit patterns),
three booleans, one unsigned byte}`. -/
structure Frame where
  seq : Nat
  fl1 : Nat
  fl2 : Nat
  fl3 : Nat
  bo1 : Bool
  bo2 : Bool
  bo3 : Bool
  byteVal : Nat
deriving DecidableEq, Repr

/-- Little-endian byte decomposition of a 32-bit quantity. -/
def toLE4 (n : Nat) : List Nat :=
  [n % 256, n / 256 % 256, n / 65536 % 256, n / 16777216 % 256]

/-- Little-endian recomposition of four bytes. -/
def ofLE4 (a b c d : Nat) : Nat :=
  a + 256 * (b + 256 * (c + 256 * d))

/-- Encoding of a Python `bool` under struct format `?`: True ↦ 1, False ↦ 0. -/
def boolByte (b : Bool) : Nat := if b then 1 else 0

/-- Encoding `struct.pack("Ifff???B", ...)`: the 20-byte little-endian wire image of a
frame. -/
def pack_frame (fr : Frame) : List Nat :=
  toLE4 fr.seq ++ toLE4 fr.fl1 ++ toLE4 fr.fl2 ++ toLE4 fr.fl3 ++
    [boolByte fr.bo1, boolByte fr.bo2, boolByte fr.bo3, fr.byteVal]

/-- Decoding `struct.unpack("Ifff???B", data)`: succeeds only on exactly 20 bytes;
a `?` byte decodes to True exactly when it is nonzero. -/
def unpack_frame : List Nat → Option Frame
  | [a0, a1, a2, a3, b0, b1, b2, b3, c0, c1, c2, c3, d0, d1, d2, d3,
     e0, e1, e2, g0] =>
      some { seq := ofLE4 a0 a1 a2 a3
             fl1 := ofLE4 b0 b1 b2 b3
             fl2 := ofLE4 c0 c1 c2 c3
             fl3 := ofLE4 d0 d1 d2 d3
             bo1 := e0 != 0
             bo2 := e1 != 0
             bo3 := e2 != 0
             byteVal := g0 }
  | _ => none

theorem ofLE4_toLE4 (n : Nat) (h : n < 4294967296) :
    ofLE4 (n % 256) (n / 256 % 256) (n / 65536 % 256) (n / 16777216 % 256) = n := by
  unfold ofLE4
  omega

theorem boolByte_ne_zero (b : Bool) : (boolByte b != 0) = b := by
  cases b <;> rfl

theorem pack_frame_length (fr : Frame) : (pack_frame fr).length = 20 := by
  simp [pack_frame, toLE4]

/-- C2: encoding a Frame whose fields are in range (u32 sequence, three
float32 bit patterns, one unsigned byte) into the 20-byte `I f f f ? ? ? B`
wire layout and decoding the result yields the original Frame, and the
encoding is exactly 20 bytes long. -/
theorem frame_encode_decode_roundtrip (fr : Frame)
    (hseq : fr.seq < 4294967296) (hf1 : fr.fl1 < 4294967296)
    (hf2 : fr.fl2 < 4294967296) (hf3 : fr.fl3 < 4294967296)
    (hbyte : fr.byteVal < 256) :
    unpack_frame (pack_frame fr) = some fr ∧ (pack_frame fr).length = 20 := by
  obtain ⟨s, f1, f2, f3, b1, b2, b3, g⟩ := fr
  refine ⟨?_, pack_frame_length _⟩
  simp only [pack_frame, toLE4, List.cons_append, List.nil_append,
    unpack_frame, Option.some.injEq, Frame.mk.injEq]
  simp only at hseq hf1 hf2 hf3 hbyte
  exact ⟨ofLE4_toLE4 s hseq, ofLE4_toLE4 f1 hf1, ofLE4_toLE4 f2 hf2,
    ofLE4_toLE4 f3 hf3, boolByte_ne_zero b1, boolByte_ne_zero b2,
    boolByte_ne_zero b3, trivial⟩

/-- C2 witness: a concrete in-range frame round-trips. -/
theorem frame_encode_decode_roundtrip_witness :
    unpack_frame (pack_frame ⟨7, 1065353216, 3212836864, 0, true, false, true, 42⟩) =
      some ⟨7, 1065353216, 3212836864, 0, true, false, true, 42⟩ ∧
    (pack_frame ⟨7, 1065353216, 3212836864, 0, true, false, true, 42⟩).length = 20 :=
  frame_encode_decode_roundtrip ⟨7, 1065353216, 3212836864, 0, true, false, true, 42⟩
    (by decide) (by decide) (by decide) (by decide) (by decide)

/-! ## Inbound CAN receive handler (`SSS3.receive`)

`receive` does `data = key.fileobj.recv(20)`, decodes the datagram with
`struct.unpack("Ifff???B", data)` only when `len(data) == 20`, and on
`socket.timeout` runs `settimeout(0.04); dropped_messages += 1;
timeouts += 1` inside the handler (no exception escapes).  Socket timeouts
are modelled in milliseconds; the initial value set by
`__set_mcast_options` is `settimeout(0.4)` = 400 ms. -/

/-- Mutable state touched by `SSS3.receive`: the two loss counters and the
CAN socket's receive timeout (milliseconds). -/
structure RecvState where
  dropped_messages : Nat
  timeouts : Nat
  sock_timeout_ms : Nat
deriving DecidableEq, Repr

/-- One readiness event on the CAN socket: either a datagram arrived
(arbitrary payload bytes) or the blocking read hit `socket.timeout`. -/
inductive RecvEvent where
  | datagram (payload : List Nat)
  | timeout
deriving DecidableEq, Repr

/-- Model of `sock.recv(bufsize)` on a UDP socket: returns at most `bufsize` bytes of
the datagram; any excess bytes of the datagram are discarded. -/
def recv (bufsize : Nat) (payload : List Nat) : List Nat :=
  payload.take bufsize

/-- Handler `SSS3.receive`: returns the state after the event together with the
decoded Frame that is forwarded (printed), if any. -/
def receive (st : RecvState) (ev : RecvEvent) : RecvState × Option Frame :=
  match ev with
  | .datagram payload =>
      let data := recv 20 payload
      if data.length = 20 then (st, unpack_frame data) else (st, none)
  | .timeout =>
      ({ dropped_messages := st.dropped_messages + 1,
         timeouts := st.timeouts + 1,
         sock_timeout_ms := 40 }, none)

/-- The state of `SSS3` right after `__set_mcast_options` configured the CAN
socket: fresh counters, 400 ms receive timeout. -/
def initialRecvState : RecvState := ⟨0, 0, 400⟩

/-- C6 counterexample: the receive timeout is not progressively tightened in
later iterations — after the first timeout sets it to 40 ms, a second
timeout leaves it at exactly the same fixed 40 ms value. -/
theorem receive_timeout_not_progressive :
    (receive (receive initialRecvState .timeout).1 .timeout).1.sock_timeout_ms =
      (receive initialRecvState .timeout).1.sock_timeout_ms ∧
    (receive initialRecvState .timeout).1.sock_timeout_ms = 40 ∧
    ¬ (receive (receive initialRecvState .timeout).1 .timeout).1.sock_timeout_ms <
        (receive initialRecvState .timeout).1.sock_timeout_ms := by
  decide

/-- C6 (amended): every receive timeout increments both the dropped-message
counter and the timeout counter by exactly 1 without raising, sets the
socket timeout to the fixed value 40 ms (tightening it from the initial
400 ms only on the first occurrence), and three consecutive timeouts
increment both counters by exactly 3. -/
theorem receive_timeout_counters (st : RecvState) :
    receive st .timeout =
      (⟨st.dropped_messages + 1, st.timeouts + 1, 40⟩, none) ∧
    (receive (receive (receive st .timeout).1 .timeout).1 .timeout).1 =
      ⟨st.dropped_messages + 3, st.timeouts + 3, 40⟩ := by
  constructor <;> rfl

/-- C7 counterexample: a 21-byte inbound datagram has length ≠ 20, yet it is
not discarded — `recv(20)` truncates it to its first 20 bytes and the
handler decodes and forwards a Frame from them. -/
theorem receive_long_datagram_decoded :
    (List.replicate 21 (0 : Nat)).length ≠ 20 ∧
    (receive initialRecvState (.datagram (List.replicate 21 0))).2 =
      some ⟨0, 0, 0, 0, false, false, false, 0⟩ := by
  decide

/-- C7 (amended): for every inbound datagram of fewer than 20 bytes, the
receive handler discards it silently — no Frame is decoded or forwarded and
the whole state (both counters and the socket timeout) is unchanged;
datagrams of 20 bytes or more are truncated to their first 20 bytes by
`recv(20)` and those are decoded. -/
theorem receive_short_datagram_discarded (st : RecvState) (payload : List Nat)
    (hlen : payload.length < 20) :
    receive st (.datagram payload) = (st, none) := by
  have htake : (recv 20 payload).length = payload.length := by
    simp [recv, Nat.min_eq_right (Nat.le_of_lt hlen)]
  simp [receive, htake, Nat.ne_of_lt hlen]

/-- C7 witness: an 18-byte datagram is discarded with no state change. -/
theorem receive_short_datagram_discarded_witness :
    receive initialRecvState (.datagram (List.replicate 18 0)) =
      (initialRecvState, none) :=
  receive_short_datagram_discarded initialRecvState (List.replicate 18 0)
    (by decide)

/-! ## Device discovery and session request (`BrokerHandle`)

`BrokerHandle.request_devices` builds
`req_to_ecu_list = [i for i in devices if i["ID"] in requested_devices]`
and sends `{"MAC": self.mac, "ECUs": req_to_ecu_list}` as the session-request
body.  `BrokerHandle.get_devices` sends `GET /sss3` and funnels the response
through `__validate_device_list_response` and `__deserialize_device_list`. -/

/-- A DeviceDescriptor from the broker's device list:
`{ID: integer, type, year, make, model: strings}`. -/
structure Device where
  ID : Int
  typeStr : String
  year : String
  make : String
  model : String
deriving DecidableEq, Repr

/-- The list comprehension `[i for i in devices if i["ID"] in requested_devices]`
of `BrokerHandle.request_devices`. -/
def req_to_ecu_list (requested_devices : List Int) : List Device → List Device
  | [] => []
  | i :: rest =>
      if i.ID ∈ requested_devices then i :: req_to_ecu_list requested_devices rest
      else req_to_ecu_list requested_devices rest

/-- The JSON body `{"MAC": ..., "ECUs": ...}` sent by
`BrokerHandle.request_devices` to `POST /client/session`. -/
structure SessionRequestBody where
  MAC : String
  ECUs : List Device
deriving DecidableEq, Repr

/-- The session-request body built by `BrokerHandle.request_devices` from the
client identity, the user-selected IDs and the broker's device list. -/
def request_devices_body (mac : String) (requested_devices : List Int)
    (devices : List Device) : SessionRequestBody :=
  { MAC := mac, ECUs := req_to_ecu_list requested_devices devices }

theorem req_to_ecu_list_eq_filter (requested : List Int) (devices : List Device) :
    req_to_ecu_list requested devices =
      devices.filter (fun d => decide (d.ID ∈ requested)) := by
  induction devices with
  | nil => rfl
  | cons d rest ih =>
      by_cases hd : d.ID ∈ requested <;>
        simp [req_to_ecu_list, List.filter, hd, ih]

/-- C1: the session-request body contains exactly those descriptors of the
broker's device list whose ID is among the requested IDs, in the
server-provided order (it is the order-preserving filter of the device
list, hence a sublist of it whose members are characterised by ID
membership); in the concrete scenario where the broker returns the
descriptors with IDs 1 and 2 and the client selects [2], the body contains
only the ID-2 descriptor. -/
theorem request_devices_body_exact (mac : String) (requested : List Int)
    (devices : List Device) :
    (request_devices_body mac requested devices).MAC = mac ∧
    (request_devices_body mac requested devices).ECUs =
      devices.filter (fun d => decide (d.ID ∈ requested)) ∧
    (request_devices_body mac requested devices).ECUs.Sublist devices ∧
    (∀ d : Device, d ∈ (request_devices_body mac requested devices).ECUs ↔
      d ∈ devices ∧ d.ID ∈ requested) ∧
    (request_devices_body "00:0C:29:DE:AD:BE" [2]
        [⟨1, "t", "y", "m", "o"⟩, ⟨2, "t", "y", "m", "o"⟩]).ECUs =
      [⟨2, "t", "y", "m", "o"⟩] := by
  refine ⟨rfl, req_to_ecu_list_eq_filter requested devices, ?_, ?_, by decide⟩
  · rw [request_devices_body, req_to_ecu_list_eq_filter]
    exact List.filter_sublist devices
  · intro d
    rw [request_devices_body, req_to_ecu_list_eq_filter]
    simp [List.mem_filter]

/-! ## Device-list retrieval error handling (`BrokerHandle.get_devices`)

`get_devices` returns `None` implicitly when the `GET /sss3` request raises
`http.client.HTTPException` or when `__wait_for_socket` is not ready;
otherwise it returns `__validate_device_list_response(response, data)`.
That helper returns `__deserialize_device_list(data)` for statuses in
[200,400) and `[]` otherwise; `__deserialize_device_list` returns `[]` on
`json.JSONDecodeError` or `jsonschema.ValidationError`, and schema-validates
the decoded array only when it is non-empty.  The decoded body is modelled
as `Option (List Device)` (`none` = undecodable JSON); the device-list
schema `RequestECUs.json` is not in the repository, so the validator is an
arbitrary predicate parameter. -/

/-- Outcome of one `GET /sss3` exchange as observed by `get_devices`:
the request may raise at the transport layer, the readiness wait may fail,
or a response arrives with a status, reason and (possibly undecodable)
body. -/
inductive ListOutcome where
  | sendError
  | waitFailed
  | responded (status : Nat) (reason : String) (body : Option (List Device))

/-- Helper `BrokerHandle.__deserialize_device_list`: `[]` on a JSON decode failure,
`[]` on a schema-validation failure, and validation is run only when the
decoded array is non-empty. -/
def deserialize_device_list (body : Option (List Device))
    (validate : List Device → Bool) : List Device :=
  match body with
  | none => []
  | some available_devices =>
      if available_devices.length > 0 then
        if validate available_devices then available_devices else []
      else available_devices

/-- Helper `BrokerHandle.__validate_device_list_response`: deserialize for statuses
in [200,400), `[]` otherwise. -/
def validate_device_list_response (status : Nat) (body : Option (List Device))
    (validate : List Device → Bool) : List Device :=
  if 200 ≤ status ∧ status < 400 then deserialize_device_list body validate
  else []

/-- Method `BrokerHandle.get_devices`: `none` when the request raised or the
readiness wait failed (the function falls off the end), otherwise the
validated device list. -/
def get_devices (out : ListOutcome) (validate : List Device → Bool) :
    Option (List Device) :=
  match out with
  | .sendError => none
  | .waitFailed => none
  | .responded status _ body =>
      some (validate_device_list_response status body validate)

/-- A validator that rejects every device list, used to exhibit concrete
error paths. -/
def rejectAll : List Device → Bool := fun _ => false

/-- A validator that accepts every device list. -/
def acceptAll : List Device → Bool := fun _ => true

/-- A sample descriptor used in concrete runs. -/
def sampleDevice : Device := ⟨1, "ECM", "2014", "Detroit", "DD15"⟩

/-- C4: for a successful-status response, an undecodable body yields an empty
device list, a body whose decoded array fails schema validation yields an
empty device list (the failure is absorbed, not propagated), and an empty
JSON array is returned as a valid result whose value never depends on the
schema validator (it is never schema-validated). -/
theorem get_devices_protocol_error_degradation (status : Nat) (reason : String)
    (validate validate2 : List Device → Bool) (ds : List Device)
    (hst : 200 ≤ status ∧ status < 400) :
    get_devices (.responded status reason none) validate = some [] ∧
    (validate ds = false →
      get_devices (.responded status reason (some ds)) validate = some []) ∧
    get_devices (.responded status reason (some [])) validate =
      get_devices (.responded status reason (some [])) validate2 ∧
    get_devices (.responded status reason (some [])) validate = some [] := by
  refine ⟨?_, ?_, ?_, ?_⟩ <;>
    simp [get_devices, validate_device_list_response, deserialize_device_list,
      hst]
  intro hval
  match ds with
  | [] => simp [deserialize_device_list]
  | d :: rest => simp [deserialize_device_list, hval]

/-- C4 witness: with status 200, an undecodable body, a rejected non-empty
list and the empty array all take the paths the claim describes. -/
theorem get_devices_protocol_error_degradation_witness :
    get_devices (.responded 200 "OK" none) rejectAll = some [] ∧
    get_devices (.responded 200 "OK" (some [sampleDevice])) rejectAll = some [] ∧
    get_devices (.responded 200 "OK" (some [])) rejectAll =
      get_devices (.responded 200 "OK" (some [])) acceptAll ∧
    get_devices (.responded 200 "OK" (some [])) rejectAll = some [] :=
  have h := get_devices_protocol_error_degradation 200 "OK" rejectAll acceptAll
    [sampleDevice] (by decide)
  ⟨h.1, h.2.1 rfl, h.2.2.1, h.2.2.2⟩

/-- C10: when the device-list request raises at the transport layer or the
readiness wait does not report the socket ready, `get_devices` returns
`None` rather than a list; only a received response produces a list result. -/
theorem get_devices_transport_failure_none (validate : List Device → Bool)
    (status : Nat) (reason : String) (body : Option (List Device)) :
    get_devices .sendError validate = none ∧
    get_devices .waitFailed validate = none ∧
    get_devices (.responded status reason body) validate ≠ none := by
  refine ⟨rfl, rfl, ?_⟩
  simp [get_devices]

/-! ## Registration (`BrokerHandle.register`)

`register(retry=True)` submits `{"MAC": mac}` to `POST /client/register`,
reads the response, succeeds on `200 <= status < 400`, recurses once with
`retry=False` on a bad status, and after the second bad status logs the
failure code and reason and returns `False`.  Each attempt's response is
modelled by an oracle from the attempt index to the received response. -/

/-- An HTTP response as read by `register`: status code and reason phrase. -/
structure HttpResp where
  status : Nat
  reason : String
deriving DecidableEq, Repr

/-- Method `BrokerHandle.register`: given the oracle of responses and the index of
the current attempt, returns the boolean result, the total number of
attempts made and, on final failure, the response whose code and reason are
reported. -/
def register (resp : Nat → HttpResp) (attempt : Nat) (retry : Bool) :
    Bool × Nat × Option HttpResp :=
  let r := resp attempt
  if 200 ≤ r.status ∧ r.status < 400 then (true, attempt + 1, none)
  else
    match retry with
    | true => register resp (attempt + 1) false
    | false => (false, attempt + 1, some r)
termination_by cond retry 1 0

/-- C5: `register` treats any status in [200,400) as success; on a failed
first attempt it retries exactly once (a second, fresh attempt); a
successful second attempt returns true after two attempts; after a second
failure it returns false, having made exactly two attempts, reporting the
second response's failure code and reason. -/
theorem register_retry_policy (resp : Nat → HttpResp) :
    ((200 ≤ (resp 0).status ∧ (resp 0).status < 400) →
      register resp 0 true = (true, 1, none)) ∧
    ((¬ (200 ≤ (resp 0).status ∧ (resp 0).status < 400)) →
      (200 ≤ (resp 1).status ∧ (resp 1).status < 400) →
      register resp 0 true = (true, 2, none)) ∧
    ((¬ (200 ≤ (resp 0).status ∧ (resp 0).status < 400)) →
      (¬ (200 ≤ (resp 1).status ∧ (resp 1).status < 400)) →
      register resp 0 true = (false, 2, some (resp 1))) := by
  refine ⟨?_, ?_, ?_⟩ <;> intro h0
  · rw [register]
    simp [h0]
  · intro h1
    rw [register, if_neg h0, register]
    simp [h1]
  · intro h1
    rw [register, if_neg h0, register, if_neg h1]

/-- The broker answering 503 to every registration attempt. -/
def alwaysBusy : Nat → HttpResp := fun _ => ⟨503, "Service Unavailable"⟩

/-- C5 witness: against a broker that always answers 503, `register` makes
exactly two attempts and returns false reporting the second 503 response. -/
theorem register_retry_policy_witness :
    register alwaysBusy 0 true = (false, 2, some ⟨503, "Service Unavailable"⟩) :=
  (register_retry_policy alwaysBusy).2.2 (by decide) (by decide)

/-! ## Setup push handler (`BrokerHandle.do_POST`)

`do_POST` runs `json.load`, then `session_schema.validate(data)`, then
`self.mcast_IP = IPv4Address(data["IP"])`, `self.can_port = data["CAN_PORT"]`,
`self.carla_port = data["CARLA_PORT"]`.  Each of `jsonschema.ValidationError`,
`json.JSONDecodeError` and `ipaddress.AddressValueError` sets
`close_connection = True` and re-raises as `SyntaxError`.  Note the
evaluation order: the schema check and the IPv4 parse both happen before the
first field assignment, so a failure leaves every field untouched.

The schema `SessionInformation.json` is not in the repository.  Modelled
from the spec: the setup-push body schema requires `"IP"` to be a string and
`"CAN_PORT"`/`"CARLA_PORT"` to be integers (`{"IP": IPv4 string,
"CAN_PORT": int, "CARLA_PORT": int}`); validation failure covers a missing
or wrongly-typed field. -/

/-- A JSON value as far as the setup push cares: strings, integers, or
anything else. -/
inductive JVal where
  | jstr (s : String)
  | jint (n : Int)
  | jother
deriving DecidableEq, Repr

/-- A decoded JSON object: association list from keys to values. -/
def JsonDoc : Type := List (String × JVal)

/-- Raw body of a setup push: either undecodable JSON
(`json.JSONDecodeError`) or a decoded JSON object. -/
inductive SetupBody where
  | undecodable
  | decoded (doc : JsonDoc)

/-- First value bound to a key in a JSON object. -/
def getField (doc : JsonDoc) (k : String) : Option JVal :=
  match doc with
  | [] => none
  | (k', v) :: rest => if k' = k then some v else getField rest k

/-- The key's value when present and a string, else `none`. -/
def getStr (doc : JsonDoc) (k : String) : Option String :=
  match getField doc k with
  | some (.jstr s) => some s
  | _ => none

/-- The key's value when present and an integer, else `none`. -/
def getInt (doc : JsonDoc) (k : String) : Option Int :=
  match getField doc k with
  | some (.jint n) => some n
  | _ => none

/-- Numeric value of a digit string. -/
def digitsVal (cs : List Char) : Nat :=
  cs.foldl (fun acc c => acc * 10 + (c.toNat - 48)) 0

/-- Split a character list on the dot separator (the grouping performed by
the dotted-quad parser of `ipaddress.IPv4Address`). -/
def splitOnDot : List Char → List (List Char)
  | [] => [[]]
  | c :: rest =>
      if c = '.' then [] :: splitOnDot rest
      else
        match splitOnDot rest with
        | [] => [[c]]
        | g :: gs => (c :: g) :: gs

/-- One dotted-quad octet as accepted by `ipaddress.IPv4Address`: non-empty,
all decimal digits, no leading zero, value at most 255. -/
def parseOctet (cs : List Char) : Option Nat :=
  if cs ≠ [] ∧ cs.all Char.isDigit ∧ (cs.length = 1 ∨ cs.head? ≠ some '0') ∧
      digitsVal cs ≤ 255 then
    some (digitsVal cs)
  else none

/-- Parsing `ipaddress.IPv4Address` applied to a string: exactly four valid octets
separated by dots, else `AddressValueError` (modelled as `none`). -/
def parseIPv4 (s : String) : Option (Nat × Nat × Nat × Nat) :=
  match (splitOnDot s.data).map parseOctet with
  | [some a, some b, some c, some d] => some (a, b, c, d)
  | _ => none

/-- The fields of `BrokerHandle` touched by the push handlers: the three
SessionParameters (`mcast_IP` is `none` for the unset sentinel
`IPv4Address`, the class object) and the `close_connection` flag. -/
structure BrokerState where
  mcast_IP : Option (Nat × Nat × Nat × Nat)
  can_port : Int
  carla_port : Int
  close_connection : Bool
deriving DecidableEq, Repr

/-- The error surfaced to the caller of the push handler: the `SyntaxError`
raised from any of the three except clauses of `do_POST`. -/
inductive PushErr where
  | syntaxError
deriving DecidableEq, Repr

/-- Method `BrokerHandle.do_POST`: decode, schema-validate (the three `getStr`/
`getInt` probes are the spec-modelled schema check), parse the IP, then
assign all three SessionParameters; any failure sets only
`close_connection` and raises `SyntaxError`. -/
def do_POST (st : BrokerState) (body : SetupBody) :
    BrokerState × Except PushErr Unit :=
  match body with
  | .undecodable => ({ st with close_connection := true }, .error .syntaxError)
  | .decoded doc =>
      match getStr doc "IP", getInt doc "CAN_PORT", getInt doc "CARLA_PORT" with
      | some ipStr, some canPort, some carlaPort =>
          match parseIPv4 ipStr with
          | some ip =>
              ({ st with mcast_IP := some ip, can_port := canPort,
                         carla_port := carlaPort }, .ok ())
          | none =>
              ({ st with close_connection := true }, .error .syntaxError)
      | _, _, _ => ({ st with close_connection := true }, .error .syntaxError)

/-- C3: whenever `do_POST` surfaces an error (undecodable JSON, schema
violation such as a missing `CAN_PORT`, or a non-IPv4 `IP` string), the
resulting state is exactly the pre-push state with only `close_connection`
set: all three SessionParameters fields are untouched, so they are never
partially assigned. -/
theorem do_POST_malformed_preserves_params (st : BrokerState) (body : SetupBody)
    (e : PushErr) (herr : (do_POST st body).2 = .error e) :
    (do_POST st body).1 = { st with close_connection := true } := by
  match body with
  | .undecodable => rfl
  | .decoded doc =>
      rw [do_POST] at herr ⊢
      rcases hip : getStr doc "IP" with _ | ipStr <;>
        rcases hcan : getInt doc "CAN_PORT" with _ | canPort <;>
          rcases hcar : getInt doc "CARLA_PORT" with _ | carlaPort <;>
            simp only [hip, hcan, hcar] at herr ⊢
      rcases hparse : parseIPv4 ipStr with _ | ip <;>
        simp only [hparse] at herr ⊢
      simp at herr

/-- A setup-push body that is schema-valid but carries a non-IPv4 `IP`. -/
def badIPBody : SetupBody :=
  .decoded [("IP", .jstr "999.0.0.1"), ("CAN_PORT", .jint 41665),
            ("CARLA_PORT", .jint 41664)]

/-- The broker-handle state before any push arrives: SessionParameters
unset. -/
def freshBrokerState : BrokerState := ⟨none, 0, 0, false⟩

/-- C3 witness: a push whose `IP` is the non-IPv4 string "999.0.0.1" leaves
the fresh state unchanged apart from the closure flag. -/
theorem do_POST_malformed_preserves_params_witness :
    (do_POST freshBrokerState badIPBody).1 =
      { freshBrokerState with close_connection := true } :=
  do_POST_malformed_preserves_params freshBrokerState badIPBody .syntaxError
    rfl

/-! ## Session teardown (`BrokerHandle.send_delete`, `SSS3.stop`)

`send_delete(path, close)` sends `DELETE path`, modifies the selector entry,
waits for and drains the response; exceptions from the try body (only
`http.client.HTTPException` is caught, but the `return response` inside the
`finally` block swallows any in-flight exception).  When `close` is set the
`finally` block runs `key = self.sel.get_key(self.ctrl.sock)` —
which raises `KeyError` if the control socket is no longer registered, and
that exception, raised inside `finally`, does propagate — then
`shutdown_connection(key)` (unregister, shutdown, close) and `do_DELETE()`
(reset the three SessionParameters).

`SSS3.stop` sets `listen = False`, calls `send_delete("/session")` and
`send_delete("/client/register", True)`, then unregisters, shuts down and
closes the `can` and `carla` sockets (`selectors` raises `KeyError` on
unregistering an absent socket; `socket.shutdown` raises `OSError` on a
closed socket).

A socket's `open` flag means it has been neither shut down nor closed; the
transport of a control request is an environment input, forced to failure
when the control socket is no longer open. -/

/-- The three sockets owned by the client. -/
inductive SockId where
  | ctrl
  | can
  | carla
deriving DecidableEq, Repr

/-- Transport outcome of one control-channel DELETE exchange: the request
raises while sending, the readiness wait fails, or a response is received
and drained. -/
inductive Transport where
  | sendFail
  | waitFail
  | respOk
deriving DecidableEq, Repr

/-- A Python exception escaping the teardown path. -/
inductive PyErr where
  | keyError
  | osError
deriving DecidableEq, Repr

/-- Client state touched by teardown: the listen flag, the selector
registration table, the open flags of the three sockets, the three
SessionParameters, and the paths of control requests actually put on the
wire (the observable teardown requests). -/
structure ClientState where
  listen : Bool
  selTable : List SockId
  ctrlOpen : Bool
  canOpen : Bool
  carlaOpen : Bool
  mcast_IP : Option (Nat × Nat × Nat × Nat)
  can_port : Int
  carla_port : Int
  wireSent : List String
deriving DecidableEq, Repr

/-- Method `BrokerHandle.send_delete`: try to send `DELETE path` and drain the
response (exceptions swallowed by the `return` in `finally`); if `close`,
the `finally` block looks the control socket up in the selector (KeyError
when absent), unregisters it, shuts it down and closes it (OSError when
already closed) and resets the SessionParameters via `do_DELETE`. -/
def send_delete (st : ClientState) (path : String) (close : Bool)
    (tr : Transport) : ClientState × Except PyErr Unit :=
  let tr1 := if st.ctrlOpen then tr else Transport.sendFail
  let st1 :=
    match tr1 with
    | .sendFail => st
    | .waitFail => { st with wireSent := st.wireSent ++ [path] }
    | .respOk => { st with wireSent := st.wireSent ++ [path] }
  if close then
    if SockId.ctrl ∈ st1.selTable then
      let st2 := { st1 with selTable := st1.selTable.erase SockId.ctrl }
      if st2.ctrlOpen then
        ({ st2 with ctrlOpen := false, mcast_IP := none, can_port := 0,
                    carla_port := 0 }, .ok ())
      else (st2, .error .osError)
    else (st1, .error .keyError)
  else (st1, .ok ())

/-- Method `SSS3.stop`: clear the listen flag, issue the two teardown requests, then
unregister/shutdown/close the `can` and `carla` sockets in order; any raised
exception propagates and aborts the remaining steps. -/
def stop (st : ClientState) (tr1 tr2 : Transport) :
    ClientState × Except PyErr Unit :=
  let st0 := { st with listen := false }
  match send_delete st0 "/session" false tr1 with
  | (st1, .error e) => (st1, .error e)
  | (st1, .ok _) =>
    match send_delete st1 "/client/register" true tr2 with
    | (st2, .error e) => (st2, .error e)
    | (st2, .ok _) =>
      if SockId.can ∈ st2.selTable then
        let st3 := { st2 with selTable := st2.selTable.erase SockId.can }
        if st3.canOpen then
          let st4 := { st3 with canOpen := false }
          if SockId.carla ∈ st4.selTable then
            let st5 := { st4 with selTable := st4.selTable.erase SockId.carla }
            if st5.carlaOpen then ({ st5 with carlaOpen := false }, .ok ())
            else (st5, .error .osError)
          else (st4, .error .keyError)
        else (st3, .error .osError)
      else (st2, .error .keyError)

/-- The client state in an active session: all three sockets registered and
open, SessionParameters set, nothing sent yet. -/
def sessionActiveState : ClientState :=
  ⟨true, [SockId.ctrl, SockId.can, SockId.carla], true, true, true,
   some (239, 255, 0, 1), 41665, 41664, []⟩

/-- C8 counterexample: from an active session, the first `stop()` succeeds
and puts both teardown requests on the wire, but the second `stop()` raises
`KeyError` (from `sel.get_key` on the unregistered control socket) and puts
no request on the wire — `stop()` is not idempotent and the second call
does not reproduce the first call's observable teardown requests. -/
theorem stop_twice_raises :
    (stop sessionActiveState .respOk .respOk).2 = .ok () ∧
    (stop sessionActiveState .respOk .respOk).1.wireSent =
      ["/session", "/client/register"] ∧
    (stop (stop sessionActiveState .respOk .respOk).1 .respOk .respOk).2 =
      .error .keyError ∧
    (stop (stop sessionActiveState .respOk .respOk).1 .respOk .respOk).1.wireSent =
      ["/session", "/client/register"] := by
  refine ⟨rfl, rfl, rfl, rfl⟩

/-- C8 (amended): `stop()` is not idempotent.  After a completed `stop()` the
control socket is closed and unregistered; a second `stop()` sends no
teardown request over the wire (both DELETE attempts fail at the transport
and `send_delete` swallows those failures via the `return` in its `finally`
block) and raises `KeyError` when the close-path of the second `send_delete`
looks the control socket up in the selector. -/
theorem stop_second_call_behaviour (st : ClientState) (tr1 tr2 : Transport)
    (hsel : SockId.ctrl ∉ st.selTable) (hopen : st.ctrlOpen = false) :
    stop st tr1 tr2 = ({ st with listen := false }, .error .keyError) := by
  have h1 : send_delete { st with listen := false } "/session" false tr1 =
      ({ st with listen := false }, .ok ()) := by
    simp [send_delete, hopen]
  have h2 : send_delete { st with listen := false } "/client/register" true tr2 =
      ({ st with listen := false }, .error .keyError) := by
    simp [send_delete, hopen, hsel]
  rw [stop, h1]
  dsimp only
  rw [h2]

/-- C8 witness: the state after the first `stop()` from an active session
satisfies the amended description, so the second call returns the `KeyError`
outcome. -/
theorem stop_second_call_behaviour_witness :
    stop (stop sessionActiveState .respOk .respOk).1 .waitFail .respOk =
      ({ (stop sessionActiveState .respOk .respOk).1 with listen := false },
        .error .keyError) :=
  stop_second_call_behaviour (stop sessionActiveState .respOk .respOk).1
    .waitFail .respOk (by decide) (by decide)

/-- C9: whenever `send_delete` is invoked with the close flag from a state
whose control socket is registered (without duplicates) and open, it returns
normally and the final state has the control socket unregistered, shut down
and closed and the three SessionParameters reset to unset — for every
transport outcome, including a failed send and a failed response wait. -/
theorem send_delete_close_cleanup (st : ClientState) (path : String)
    (tr : Transport) (hnd : st.selTable.Nodup)
    (hsel : SockId.ctrl ∈ st.selTable) (hopen : st.ctrlOpen = true) :
    (send_delete st path true tr).2 = .ok () ∧
    SockId.ctrl ∉ (send_delete st path true tr).1.selTable ∧
    (send_delete st path true tr).1.ctrlOpen = false ∧
    (send_delete st path true tr).1.mcast_IP = none ∧
    (send_delete st path true tr).1.can_port = 0 ∧
    (send_delete st path true tr).1.carla_port = 0 := by
  have herase : SockId.ctrl ∉ st.selTable.erase SockId.ctrl := by
    intro hmem
    exact ((List.Nodup.mem_erase_iff hnd).1 hmem).1 rfl
  cases tr <;> simp [send_delete, hopen, hsel, herase]

/-- C9 witness: from an active session, a `send_delete` whose request fails
to send still unregisters, shuts down and closes the control socket and
resets the SessionParameters. -/
theorem send_delete_close_cleanup_witness :
    (send_delete sessionActiveState "/client/register" true .sendFail).2 = .ok () ∧
    SockId.ctrl ∉
      (send_delete sessionActiveState "/client/register" true .sendFail).1.selTable ∧
    (send_delete sessionActiveState "/client/register" true .sendFail).1.ctrlOpen =
      false ∧
    (send_delete sessionActiveState "/client/register" true .sendFail).1.mcast_IP =
      none ∧
    (send_delete sessionActiveState "/client/register" true .sendFail).1.can_port =
      0 ∧
    (send_delete sessionActiveState "/client/register" true .sendFail).1.carla_port =
      0 :=
  send_delete_close_cleanup sessionActiveState "/client/register" .sendFail
    (by decide) (by decide) (by decide)

end SDT
